import Mathlib

/-
Verification development for the landing-page horizontal section-navigation
controller (src/frontend/src/routes/landing.tsx).

The controller is embedded shallowly:
- Scroll offsets, widths and wheel deltas are rationals (the browser computes
  with floating point; all constants and comparisons in the source are exact
  at the precision used here).
- The JavaScript remainder operator x % 1 truncates toward zero, hence the
  jsTrunc / jsMod1 helpers.
- The event loop is explicit: DOM callbacks and timer callbacks are events
  applied to a state record.  The 800 ms settle timeout of scrollToSection is
  kept in a FIFO queue of SettleTimer records, each storing the values the
  JavaScript closure captured (section width, clamped target index, and the
  scroll-snap style read before it was overwritten).  Timers all share the
  same nominal delay, so they fire in scheduling order.
- A smooth programmatic scroll in flight is the anim field (destination of
  the pending animation, or none).  Animation progress is delivered by
  explicit events (animAdvanceTo, animDone); the settle timeout in the source
  fires after a fixed duration and in no way waits for scroll progress, so a
  settle event may fire before, between or after animation-progress events.
- Every change of the scroll offset is immediately followed by the effect of
  the scroll listener handleScroll (the rAF-throttled handler samples the
  fresh offset within a frame); this is the applyScrollResolve composition in
  the offset-mutating events.
- React state updates (setCurrentSection) are modelled as immediate, which is
  what the spec describes as updating the authoritative index immediately.
- The container is assumed mounted with its seven sections measurable (the
  early returns for a missing container or empty section list are not taken).
-/

namespace LandingNav

/-- Section labels of the landing page; there are seven sections. -/
def sectionLabels : List String :=
  ["Home", "How", "Pipeline", "Capabilities", "Trust", "About", "Contact"]

/-- Truncation toward zero, as the JavaScript remainder operator uses. -/
def jsTrunc (x : ℚ) : ℤ := if 0 ≤ x then ⌊x⌋ else ⌈x⌉

/-- JavaScript expression x % 1 for a rational x. -/
def jsMod1 (x : ℚ) : ℚ := x - jsTrunc x

/-- Shared index computation of handleScroll and handleWheel, before
clamping: rawIndex = scrollLeft / sectionWidth, rounded up when more than
30 percent into the next section and down otherwise. -/
def resolveRaw (scrollLeft sectionWidth : ℚ) : ℤ :=
  let rawIndex := scrollLeft / sectionWidth
  if jsMod1 rawIndex > 3/10 then ⌈rawIndex⌉ else ⌊rawIndex⌋

/-- Index computation of handleScroll: the raw index clamped to
[0, maxIndex]. -/
def resolveIndex (scrollLeft sectionWidth : ℚ) (maxIndex : ℕ) : ℕ :=
  (max 0 (min (maxIndex : ℤ) (resolveRaw scrollLeft sectionWidth))).toNat

/-- Modelled from the wording of the spec (section 4.2 ScrollIndexResolver):
raw = offset / pixelWidth, frac = raw mod 1 in the mathematical sense, round
up when frac > 0.3 and down otherwise, clamp to [0, N-1].  Used only to
compare against the resolver embedded from the source. -/
def resolveSpecIndex (offset pixelWidth : ℚ) (maxIndex : ℕ) : ℕ :=
  let raw := offset / pixelWidth
  let frac := raw - ⌊raw⌋
  let idx : ℤ := if frac > 3/10 then ⌈raw⌉ else ⌊raw⌋
  (max 0 (min (maxIndex : ℤ) idx)).toNat

/-- Data captured by the closure of the 800 ms settle timeout inside
scrollToSection. -/
structure SettleTimer where
  sectionWidth : ℚ
  clampedIndex : ℕ
  originalSnapType : String
deriving DecidableEq

/-- State of the navigation controller: the scroll container together with
the refs and React state the handlers in landing.tsx read and write. -/
structure NavState where
  width : ℚ
  offset : ℚ
  anim : Option ℚ
  currentSection : ℕ
  scrollInProgress : Bool
  pendingScroll : Option ℕ
  snapType : String
  timers : List SettleTimer
deriving DecidableEq

/-- Effect of the scroll listener handleScroll: recompute the authoritative
index from the current offset (rAF-throttled in the source, sampling the
fresh offset). -/
def handleScroll (st : NavState) : NavState :=
  { st with currentSection := resolveIndex st.offset st.width (sectionLabels.length - 1) }

/-- Embedding of scrollToSection(index, cancelPrevious) from landing.tsx:
clamp the index, ignore a duplicate of the pending transition, halt a
previous animation at its current position when cancelling, disable scroll
snap after saving its previous value, update the authoritative index
immediately, start the smooth scroll and schedule the settle timeout. -/
def scrollToSection (index : ℤ) (cancelPrevious : Bool) (st : NavState) : NavState :=
  let maxIdx : ℤ := (sectionLabels.length : ℤ) - 1
  let clampedIndex : ℕ := (max 0 (min maxIdx index)).toNat
  if st.scrollInProgress = true ∧ st.pendingScroll = some clampedIndex then st
  else
    let st1 := if cancelPrevious = true ∧ st.scrollInProgress = true then
      { st with anim := none } else st
    let sectionWidth := st1.width
    let targetScroll := sectionWidth * (clampedIndex : ℚ)
    let originalSnapType := st1.snapType
    { st1 with
      scrollInProgress := true
      pendingScroll := some clampedIndex
      snapType := "none"
      currentSection := clampedIndex
      anim := some targetScroll
      timers := st1.timers ++
        [{ sectionWidth := sectionWidth, clampedIndex := clampedIndex,
           originalSnapType := originalSnapType }] }

/-- Firing of the oldest pending settle timeout of scrollToSection: re-read
the offset, issue a corrective smooth scroll when off by more than 2 px,
restore the captured scroll-snap style and clear the in-progress flag and
pending index. -/
def settleCheck (st : NavState) : NavState :=
  match st.timers with
  | [] => st
  | t :: rest =>
    let currentScroll := st.offset
    let expectedScroll := t.sectionWidth * (t.clampedIndex : ℚ)
    let difference := |currentScroll - expectedScroll|
    let st1 := if difference > 2 then { st with anim := some expectedScroll } else st
    { st1 with
      snapType := if t.originalSnapType = "" then "" else t.originalSnapType
      scrollInProgress := false
      pendingScroll := none
      timers := rest }

/-- Progress of the in-flight smooth scroll: the offset moves to a point of
the segment between its current value and the animation target (q clamped to
that segment), and the scroll listener observes the new offset. -/
def animAdvance (q : ℚ) (st : NavState) : NavState :=
  match st.anim with
  | none => st
  | some t =>
    let lo := min st.offset t
    let hi := max st.offset t
    handleScroll { st with offset := max lo (min hi q) }

/-- Completion of the in-flight smooth scroll: the offset reaches the target
and the scroll listener observes it. -/
def animFinish (st : NavState) : NavState :=
  match st.anim with
  | none => st
  | some t => handleScroll { st with offset := t, anim := none }

/-- Native user scrolling of the container (for example a horizontal touch
drag): it interrupts any programmatic smooth scroll, moves the offset within
the scrollable range and is observed by the scroll listener. -/
def userScroll (q : ℚ) (st : NavState) : NavState :=
  handleScroll
    { st with
      offset := max 0 (min (st.width * ((sectionLabels.length : ℚ) - 1)) q)
      anim := none }

/-- Dominant-horizontal branch of handleWheel: scrollBy with behavior smooth,
a programmatic animation toward offset + deltaX within the scrollable
range. -/
def wheelHorizontal (deltaX : ℚ) (st : NavState) : NavState :=
  { st with
    anim := some (max 0 (min (st.width * ((sectionLabels.length : ℚ) - 1))
      (st.offset + deltaX))) }

/-- Embedding of the debounced resize handler from landing.tsx: after the
debounce, re-read the section width from the layout and, when the offset is
more than 10 px away from currentSection times the new width, jump there with
behavior auto (instant, superseding any smooth scroll in flight; the jump is
observed by the scroll listener). -/
def handleResize (newWidth : ℚ) (st : NavState) : NavState :=
  let st1 := { st with width := newWidth }
  let sectionWidth := st1.width
  let targetScroll := sectionWidth * (st1.currentSection : ℚ)
  if |st1.offset - targetScroll| > 10 then
    handleScroll { st1 with offset := targetScroll, anim := none }
  else st1

/-- Events of the navigation controller model.  Wheel-timer fires, keyboard
arrows, touch-end gestures and nav-link clicks all reach the controller as a
call of scrollToSection, covered by the call event with an arbitrary index. -/
inductive NavEvent where
  | call (index : ℤ) (cancelPrevious : Bool)
  | animAdvanceTo (q : ℚ)
  | animDone
  | drag (q : ℚ)
  | hwheel (deltaX : ℚ)
  | settle
  | resize (newWidth : ℚ)
deriving DecidableEq

/-- One event applied to the controller state. -/
def navStep (st : NavState) (e : NavEvent) : NavState :=
  match e with
  | .call i c => scrollToSection i c st
  | .animAdvanceTo q => animAdvance q st
  | .animDone => animFinish st
  | .drag q => userScroll q st
  | .hwheel d => wheelHorizontal d st
  | .settle => settleCheck st
  | .resize w => handleResize w st

/-- A finite sequence of events applied in order. -/
def navRun (st : NavState) (evs : List NavEvent) : NavState := evs.foldl navStep st

/-- Validity of an event: a resize must deliver a plausible viewport width
(at least 34 px, so that the 10 px resize tolerance stays below the 30
percent hysteresis threshold). -/
def navEventOK : NavEvent → Bool
  | .resize w => decide ((34 : ℚ) ≤ w)
  | _ => true

/-- Mount state of the landing page: at the first section, offset 0, no
transition, native scroll snap enabled (style value x mandatory), for a
viewport 1000 px wide. -/
def navInit : NavState :=
  { width := 1000, offset := 0, anim := none, currentSection := 0,
    scrollInProgress := false, pendingScroll := none,
    snapType := "x mandatory", timers := [] }

/-- Synchronisation invariant: the authoritative index is in range, and
whenever no programmatic smooth scroll is in flight it equals the resolver
applied to the current offset. -/
abbrev Jnav (st : NavState) : Prop :=
  st.currentSection ≤ sectionLabels.length - 1 ∧
  (st.anim = none →
    st.currentSection = resolveIndex st.offset st.width (sectionLabels.length - 1))

/-- State of the wheel gesture accumulator inside the handleWheel effect:
time of the last qualifying event, accumulated magnitude, and the pending
debounce timeout together with the deltaY its closure captured (none when no
timeout is pending). -/
structure WheelState where
  lastWheelTime : ℤ
  accumulatedDelta : ℚ
  timerDeltaY : Option ℚ
deriving DecidableEq

/-- Initial wheel accumulator state. -/
def wheelInit : WheelState := { lastWheelTime := 0, accumulatedDelta := 0, timerDeltaY := none }

/-- Embedding of one wheel event in handleWheel from landing.tsx.  For a
dominant-vertical event: suppressed entirely when a transition is in progress
and less than 300 ms elapsed since the last qualifying event; otherwise the
absolute deltaY is accumulated, the timestamp recorded, and the debounce
timeout restarted with this event captured.  A dominant-horizontal event is
forwarded as a direct horizontal scroll (returned as the second component). -/
def handleWheelEvent (now : ℤ) (deltaY deltaX : ℚ) (scrollInProgress : Bool)
    (ws : WheelState) : WheelState × Option ℚ :=
  if |deltaY| > |deltaX| then
    if scrollInProgress = true ∧ now - ws.lastWheelTime < 300 then (ws, none)
    else
      ({ lastWheelTime := now,
         accumulatedDelta := ws.accumulatedDelta + |deltaY|,
         timerDeltaY := some deltaY }, none)
  else if |deltaX| > 0 then (ws, some deltaX)
  else (ws, none)

/-- Firing of the wheel debounce timeout in handleWheel: below the minimum
accumulated magnitude of 50 the burst is discarded and the accumulator
reset; otherwise the direction comes from the sign of the captured deltaY of
the most recent event, the current index from the unclamped resolver, the
multiplier from the accumulated magnitude (floor of the magnitude over 200,
capped at 2, when above 200; otherwise 1), and a request toward the clamped
target is emitted when it differs from the current index.  The second
component is the index passed to scrollToSection, or none. -/
def wheelTimeoutFire (scrollLeft sectionWidth : ℚ) (ws : WheelState) :
    WheelState × Option ℕ :=
  match ws.timerDeltaY with
  | none => (ws, none)
  | some dy =>
    if ws.accumulatedDelta < 50 then
      ({ ws with accumulatedDelta := 0, timerDeltaY := none }, none)
    else
      let scrollDirection : ℤ := if dy > 0 then 1 else -1
      let currentIndex := resolveRaw scrollLeft sectionWidth
      let rapidScrollMultiplier : ℤ :=
        if ws.accumulatedDelta > 200 then min ⌊ws.accumulatedDelta / 200⌋ 2 else 1
      let targetIndex0 := currentIndex + scrollDirection * rapidScrollMultiplier
      let maxIdx : ℤ := (sectionLabels.length : ℤ) - 1
      let targetIndex := max 0 (min maxIdx targetIndex0)
      let req : Option ℕ :=
        if targetIndex ≠ currentIndex ∧ 0 ≤ targetIndex ∧ targetIndex ≤ maxIdx then
          some targetIndex.toNat
        else none
      ({ ws with accumulatedDelta := 0, timerDeltaY := none }, req)

/-- Embedding of handleTouchEnd from landing.tsx: dy and dx are the start
coordinates minus the end coordinates; a dominant-vertical gesture longer
than 50 px navigates forward when dy > 0 (the touch ended above its start)
but only below section 4, and backward when dy < 0 (the touch ended below
its start) but only above section 0.  The result is the index passed to
scrollToSection, or none. -/
def handleTouchEnd (touchStartY touchStartX clientY clientX : ℚ)
    (currentSection : ℕ) : Option ℕ :=
  let dy := touchStartY - clientY
  let dx := touchStartX - clientX
  if |dy| > |dx| ∧ |dy| > 50 then
    if dy > 0 ∧ currentSection < 4 then some (currentSection + 1)
    else if dy < 0 ∧ 0 < currentSection then some (currentSection - 1)
    else none
  else none

end LandingNav

namespace LandingNav

theorem sectionLabels_length : sectionLabels.length = 7 := rfl

theorem jsTrunc_of_nonneg {x : ℚ} (h : 0 ≤ x) : jsTrunc x = ⌊x⌋ := if_pos h

theorem jsTrunc_of_neg {x : ℚ} (h : ¬ 0 ≤ x) : jsTrunc x = ⌈x⌉ := if_neg h

theorem jsMod1_eq (x : ℚ) : jsMod1 x = x - jsTrunc x := rfl

theorem resolveRaw_eq (s w : ℚ) :
    resolveRaw s w = if jsMod1 (s / w) > 3 / 10 then ⌈s / w⌉ else ⌊s / w⌋ := rfl

theorem resolveIndex_eq (s w : ℚ) (m : ℕ) :
    resolveIndex s w m = (max 0 (min (m : ℤ) (resolveRaw s w))).toNat := rfl

theorem resolveIndex_le (off w : ℚ) (m : ℕ) : resolveIndex off w m ≤ m := by
  rw [resolveIndex_eq]
  omega

theorem resolveRaw_mul (w : ℚ) (hw : w ≠ 0) (k : ℕ) : resolveRaw (w * k) w = k := by
  have hk : w * (k : ℚ) / w = (k : ℚ) := by
    rw [mul_comm, mul_div_assoc, div_self hw, mul_one]
  rw [resolveRaw_eq, hk, jsMod1_eq, jsTrunc_of_nonneg (Nat.cast_nonneg k),
    Int.floor_natCast]
  norm_num

theorem resolveIndex_exact (w : ℚ) (hw : w ≠ 0) (k : ℕ) (hk : k ≤ 6) :
    resolveIndex (w * k) w 6 = k := by
  rw [resolveIndex_eq, resolveRaw_mul w hw k]
  omega

theorem resolveIndex_near (off w : ℚ) (k : ℕ) (hw : 34 ≤ w) (hk : k ≤ 6)
    (h : |off - w * k| ≤ 10) : resolveIndex off w 6 = k := by
  have hw0 : (0 : ℚ) < w := by linarith
  have habs := abs_le.mp h
  have hdiv : off / w - (k : ℚ) = (off - w * k) / w := by field_simp
  have h1 : (off - w * k) / w ≤ 10 / w := (div_le_div_iff_of_pos_right hw0).mpr habs.2
  have h1l : (-10 : ℚ) / w ≤ (off - w * k) / w := (div_le_div_iff_of_pos_right hw0).mpr habs.1
  have h2 : (10 : ℚ) / w ≤ 10 / 34 :=
    div_le_div_of_nonneg_left (by norm_num) (by norm_num) hw
  have h2n : (-10 : ℚ) / w = -(10 / w) := by ring
  have hub : off / w - (k : ℚ) < 3 / 10 := by
    rw [hdiv]; linarith
  have hlb : (k : ℚ) - 3 / 10 < off / w := by
    have : -(3 / 10 : ℚ) < (off - w * k) / w := by
      rw [h2n] at h1l; linarith
    linarith [hdiv]
  rw [resolveIndex_eq, resolveRaw_eq, jsMod1_eq]
  rcases le_or_lt (k : ℚ) (off / w) with hge | hlt
  · have h0 : (0 : ℚ) ≤ off / w := le_trans (Nat.cast_nonneg k) hge
    have hfl : ⌊off / w⌋ = (k : ℤ) := by
      rw [Int.floor_eq_iff]
      refine ⟨by push_cast; linarith, by push_cast; linarith⟩
    rw [jsTrunc_of_nonneg h0, hfl]
    rw [if_neg (by push_cast; linarith)]
    omega
  · rcases Nat.eq_zero_or_pos k with hk0 | hkpos
    · subst hk0
      push_cast at hlt hlb hub
      have hneg : ¬ (0 : ℚ) ≤ off / w := by linarith
      have hcl : ⌈off / w⌉ = (0 : ℤ) := by
        rw [Int.ceil_eq_iff]
        refine ⟨by push_cast; linarith, by push_cast; linarith⟩
      rw [jsTrunc_of_neg hneg, hcl]
      rw [if_neg (by push_cast; linarith)]
      have hfl : ⌊off / w⌋ = (-1 : ℤ) := by
        rw [Int.floor_eq_iff]
        refine ⟨by push_cast; linarith, by push_cast; linarith⟩
      rw [hfl]
      simp
    · have hk1 : (1 : ℚ) ≤ (k : ℚ) := by exact_mod_cast hkpos
      have hpos : (0 : ℚ) ≤ off / w := by linarith
      have hfl : ⌊off / w⌋ = (k : ℤ) - 1 := by
        rw [Int.floor_eq_iff]
        refine ⟨by push_cast; linarith, by push_cast; linarith⟩
      rw [jsTrunc_of_nonneg hpos, hfl]
      rw [if_pos (by push_cast; linarith)]
      have hcl : ⌈off / w⌉ = (k : ℤ) := by
        rw [Int.ceil_eq_iff]
        refine ⟨by push_cast; linarith, by push_cast; linarith⟩
      rw [hcl]
      omega

theorem resolveIndex_eq_spec (off w : ℚ) (h0 : 0 ≤ off) (hw : 0 < w) :
    resolveIndex off w 6 = resolveSpecIndex off w 6 := by
  have hq : (0 : ℚ) ≤ off / w := div_nonneg h0 hw.le
  rw [resolveIndex_eq, resolveRaw_eq, jsMod1_eq, jsTrunc_of_nonneg hq]
  rfl

theorem resolveIndex_clamp_top (off w : ℚ) (hw : 0 < w) (h : 6 * w ≤ off) :
    resolveIndex off w 6 = 6 := by
  have h6 : (6 : ℚ) ≤ off / w := (le_div_iff₀ hw).mpr h
  have h0 : (0 : ℚ) ≤ off / w := by linarith
  have hfl : (6 : ℤ) ≤ ⌊off / w⌋ := Int.le_floor.mpr (by push_cast; linarith)
  have hcl : (6 : ℤ) ≤ ⌈off / w⌉ := hfl.trans (Int.floor_le_ceil _)
  rw [resolveIndex_eq, resolveRaw_eq, jsMod1_eq, jsTrunc_of_nonneg h0]
  split_ifs with hfr
  · omega
  · omega

end LandingNav

namespace LandingNav

theorem evalResolve280 : resolveIndex 280 1000 6 = 0 := by
  rw [resolveIndex_eq, resolveRaw_eq, jsMod1_eq]
  norm_num [jsTrunc]

theorem evalResolve320 : resolveIndex 320 1000 6 = 1 := by
  have hc : ⌈(8/25 : ℚ)⌉ = 1 := by rw [Int.ceil_eq_iff]; norm_num
  rw [resolveIndex_eq, resolveRaw_eq, jsMod1_eq]
  norm_num [jsTrunc, hc]

theorem evalResolve0 : resolveIndex 0 1000 6 = 0 := by
  rw [resolveIndex_eq, resolveRaw_eq, jsMod1_eq]
  norm_num [jsTrunc]

theorem evalResolve2000 : resolveIndex 2000 1000 6 = 2 := by
  have h := resolveIndex_exact 1000 (by norm_num) 2 (by norm_num)
  norm_num at h
  exact h

theorem evalResolve4000 : resolveIndex 4000 1000 6 = 4 := by
  have h := resolveIndex_exact 1000 (by norm_num) 4 (by norm_num)
  norm_num at h
  exact h

theorem evalResolve2000w500 : resolveIndex 2000 500 6 = 4 := by
  have h := resolveIndex_exact 500 (by norm_num) 4 (by norm_num)
  norm_num at h
  exact h

theorem evalResolve1500w500 : resolveIndex 1500 500 6 = 3 := by
  have h := resolveIndex_exact 500 (by norm_num) 3 (by norm_num)
  norm_num at h
  exact h

theorem evalResolveRaw0 : resolveRaw 0 1000 = 0 := by
  rw [resolveRaw_eq, jsMod1_eq]
  norm_num [jsTrunc]

end LandingNav

namespace LandingNav

theorem jnav_navStep (st : NavState) (e : NavEvent) (h : Jnav st)
    (he : navEventOK e = true) : Jnav (navStep st e) := by
  have hm : sectionLabels.length - 1 = 6 := rfl
  have hm7 : sectionLabels.length = 7 := rfl
  cases e with
  | call i c =>
    show Jnav (scrollToSection i c st)
    rw [scrollToSection]
    split_ifs with hdup hc
    · exact h
    all_goals
      refine ⟨?_, fun hA => by simp at hA⟩
    all_goals
      dsimp only
      omega
  | animAdvanceTo q =>
    show Jnav (animAdvance q st)
    rw [animAdvance]
    cases hA : st.anim with
    | none => exact h
    | some t =>
      refine ⟨resolveIndex_le _ _ _, fun hA2 => ?_⟩
      simp [handleScroll, hA] at hA2
  | animDone =>
    show Jnav (animFinish st)
    rw [animFinish]
    cases hA : st.anim with
    | none => exact h
    | some t =>
      exact ⟨resolveIndex_le _ _ _, fun _ => rfl⟩
  | drag q =>
    show Jnav (userScroll q st)
    exact ⟨resolveIndex_le _ _ _, fun _ => rfl⟩
  | hwheel d =>
    show Jnav (wheelHorizontal d st)
    refine ⟨h.1, fun hA => ?_⟩
    simp [wheelHorizontal] at hA
  | settle =>
    show Jnav (settleCheck st)
    rw [settleCheck]
    cases hT : st.timers with
    | nil => exact h
    | cons t rest =>
      dsimp only
      by_cases hdiff : |st.offset - t.sectionWidth * (t.clampedIndex : ℚ)| > 2
      · rw [if_pos hdiff]
        refine ⟨h.1, fun hA => ?_⟩
        simp at hA
      · rw [if_neg hdiff]
        exact ⟨h.1, fun hA => h.2 hA⟩
  | resize w =>
    have hw : (34 : ℚ) ≤ w := by
      have h2 := he
      simp [navEventOK] at h2
      exact h2
    show Jnav (handleResize w st)
    rw [handleResize]
    split_ifs with hfar
    · exact ⟨resolveIndex_le _ _ _, fun _ => rfl⟩
    · refine ⟨h.1, fun hA => ?_⟩
      have hnear : |st.offset - w * st.currentSection| ≤ 10 := by
        simpa using not_lt.mp hfar
      have hres := resolveIndex_near st.offset w st.currentSection hw (hm ▸ h.1) hnear
      simp only [hm]
      exact hres.symm

end LandingNav

namespace LandingNav

theorem jnav_navRun (st0 : NavState) (evs : List NavEvent) (h : Jnav st0)
    (hok : evs.all navEventOK = true) : Jnav (navRun st0 evs) := by
  induction evs generalizing st0 with
  | nil => exact h
  | cons e evs ih =>
    rw [List.all_cons, Bool.and_eq_true] at hok
    exact ih (navStep st0 e) (jnav_navStep st0 e h hok.1) hok.2

theorem rapidMult (acc : ℚ) :
    (if acc > 200 then min ⌊acc / 200⌋ 2 else 1 : ℤ) = if 400 ≤ acc then 2 else 1 := by
  split_ifs with h1 h2 h2
  · have h3 : (2 : ℤ) ≤ ⌊acc / 200⌋ := by
      rw [Int.le_floor]
      rw [le_div_iff₀ (by norm_num : (0 : ℚ) < 200)]
      push_cast
      linarith
    omega
  · have hlt : acc < 400 := lt_of_not_le h2
    have hfl : ⌊acc / 200⌋ = 1 := by
      rw [Int.floor_eq_iff]
      constructor
      · rw [le_div_iff₀ (by norm_num : (0 : ℚ) < 200)]
        push_cast
        linarith
      · rw [div_lt_iff₀ (by norm_num : (0 : ℚ) < 200)]
        push_cast
        linarith
    rw [hfl]
    omega
  · linarith
  · rfl

theorem wheel_event_fresh (now : ℤ) (dY dX : ℚ) (ws : WheelState) (hdom : |dX| < |dY|) :
    handleWheelEvent now dY dX false ws =
      ({ lastWheelTime := now, accumulatedDelta := ws.accumulatedDelta + |dY|,
         timerDeltaY := some dY }, none) := by
  unfold handleWheelEvent
  rw [if_pos hdom]
  rw [if_neg (by simp)]

theorem wheel_fire_noise (sL w dy : ℚ) (ws : WheelState) (hdy : ws.timerDeltaY = some dy)
    (hlt : ws.accumulatedDelta < 50) :
    wheelTimeoutFire sL w ws = ({ ws with accumulatedDelta := 0, timerDeltaY := none }, none) := by
  unfold wheelTimeoutFire
  rw [hdy]
  dsimp only
  rw [if_pos hlt]

theorem wheel_fire_act (sL w dy : ℚ) (ws : WheelState) (hdy : ws.timerDeltaY = some dy)
    (hge : 50 ≤ ws.accumulatedDelta) :
    wheelTimeoutFire sL w ws =
      ({ ws with accumulatedDelta := 0, timerDeltaY := none },
        (fun tgt => if tgt = resolveRaw sL w then none else some tgt.toNat)
          (max 0 (min 6 (resolveRaw sL w +
            (if dy > 0 then 1 else -1) * (if 400 ≤ ws.accumulatedDelta then 2 else 1))))) := by
  unfold wheelTimeoutFire
  rw [hdy]
  dsimp only
  rw [if_neg (not_lt.mpr hge)]
  rw [rapidMult]
  have h7 : ((sectionLabels.length : ℤ) - 1) = 6 := by rw [sectionLabels_length]; norm_num
  rw [h7]
  set tgt := max 0 (min 6 (resolveRaw sL w +
    (if dy > 0 then 1 else -1) * (if 400 ≤ ws.accumulatedDelta then 2 else 1))) with htgt
  have hb : 0 ≤ tgt ∧ tgt ≤ 6 := by omega
  by_cases htk : tgt = resolveRaw sL w
  · rw [if_neg (by push_neg; intro hne; exact absurd htk hne), if_pos htk]
  · rw [if_pos ⟨htk, hb.1, hb.2⟩, if_neg htk]

end LandingNav

namespace LandingNav

/-- C4: the scroll-index resolver computes raw = offset / pixelWidth and
returns the ceiling when raw mod 1 exceeds 0.3 and the floor otherwise,
clamped to [0, N-1]; it agrees with the spec-worded resolver on the
nonnegative offsets the container can produce, maps 280 to 0, 320 to 1 and 0
to 0 at pixelWidth 1000, and clamps any offset at or beyond
(N-1) pixelWidth to N-1. -/
theorem c4_resolver :
    (∀ off w : ℚ, 0 ≤ off → 0 < w → resolveIndex off w 6 = resolveSpecIndex off w 6) ∧
    resolveIndex 280 1000 6 = 0 ∧ resolveIndex 320 1000 6 = 1 ∧
    resolveIndex 0 1000 6 = 0 ∧
    (∀ off w : ℚ, 0 < w → 6 * w ≤ off → resolveIndex off w 6 = 6) :=
  ⟨resolveIndex_eq_spec, evalResolve280, evalResolve320, evalResolve0,
    fun off w hw h => resolveIndex_clamp_top off w hw h⟩

/-- C4 witness: the general clauses of the resolver theorem instantiated at
offset 280 over width 1000 and at offset 6500 over width 1000. -/
theorem c4_resolver_witness :
    ((0 : ℚ) ≤ 280 ∧ (0 : ℚ) < 1000 ∧
      resolveIndex 280 1000 6 = resolveSpecIndex 280 1000 6) ∧
    ((0 : ℚ) < 1000 ∧ 6 * 1000 ≤ (6500 : ℚ) ∧ resolveIndex 6500 1000 6 = 6) :=
  ⟨⟨by norm_num, by norm_num, c4_resolver.1 280 1000 (by norm_num) (by norm_num)⟩,
   ⟨by norm_num, by norm_num, c4_resolver.2.2.2.2 6500 1000 (by norm_num) (by norm_num)⟩⟩

/-- C7: evaluation of the touch-end handler at the failing input of the
claim.  The upward swipe from y 500 to y 300 advances from section 2 to 3,
but at section 4, although 4 is below N-1 = 6, the hardcoded guard
currentSection < 4 suppresses the forward navigation, contradicting the
claim that every section below N-1 advances. -/
theorem c7_touch_forward_blocked :
    handleTouchEnd 500 0 300 0 4 = none ∧
    handleTouchEnd 500 0 300 0 5 = none ∧
    handleTouchEnd 500 0 300 0 2 = some 3 ∧
    4 < sectionLabels.length - 1 := by
  refine ⟨?_, ?_, ?_, by decide⟩ <;> norm_num [handleTouchEnd]

/-- C8 counterexample: a downward-ending swipe (start y 300, end y 500, no
horizontal motion) at section 1 emits a backward request toward section 0,
not the forward request toward section 2 the claim asserts. -/
theorem c8_touch_direction_cx :
    handleTouchEnd 300 0 500 0 1 = some 0 ∧ (some 0 : Option ℕ) ≠ some 2 := by
  constructor
  · norm_num [handleTouchEnd]
  · simp

/-- C8 (amended): on touch-end, when the gesture is dominant-vertical and
longer than the 50 px minimum, a swipe ending above its start emits
advance(+1) provided the current section is below 4, a swipe ending below
its start emits advance(-1) provided the current section is above 0, and
every other gesture emits nothing. -/
theorem c8_touch_amended (sY sX eY eX : ℚ) (k : ℕ) :
    (¬ (|sY - eY| > |sX - eX| ∧ |sY - eY| > 50) →
        handleTouchEnd sY sX eY eX k = none) ∧
    ((|sY - eY| > |sX - eX| ∧ |sY - eY| > 50) →
      (eY < sY → k < 4 → handleTouchEnd sY sX eY eX k = some (k + 1)) ∧
      (eY < sY → ¬ k < 4 → handleTouchEnd sY sX eY eX k = none) ∧
      (sY < eY → 0 < k → handleTouchEnd sY sX eY eX k = some (k - 1)) ∧
      (sY < eY → ¬ 0 < k → handleTouchEnd sY sX eY eX k = none)) := by
  unfold handleTouchEnd
  dsimp only
  constructor
  · intro h
    rw [if_neg h]
  · intro h
    refine ⟨fun h1 h2 => ?_, fun h1 h2 => ?_, fun h1 h2 => ?_, fun h1 h2 => ?_⟩
    · rw [if_pos h, if_pos ⟨sub_pos.mpr h1, h2⟩]
    · rw [if_pos h, if_neg (fun hc => h2 hc.2),
        if_neg (fun hc => absurd hc.1 (not_lt.mpr (le_of_lt (sub_pos.mpr h1))))]
    · rw [if_pos h, if_neg (fun hc => absurd hc.1 (not_lt.mpr (le_of_lt (sub_neg.mpr h1)))),
        if_pos ⟨sub_neg.mpr h1, h2⟩]
    · rw [if_pos h, if_neg (fun hc => absurd hc.1 (not_lt.mpr (le_of_lt (sub_neg.mpr h1)))),
        if_neg (fun hc => h2 hc.2)]

/-- C8 witness: the amended touch contract instantiated at a concrete
downward swipe from section 1 and at a too-short gesture. -/
theorem c8_touch_amended_witness :
    (|(300 : ℚ) - 500| > |(0 : ℚ) - 0| ∧ |(300 : ℚ) - 500| > 50) ∧
    ((300 : ℚ) < 500 ∧ 0 < 1) ∧
    handleTouchEnd 300 0 500 0 1 = some 0 ∧
    (¬ (|(10 : ℚ) - 10| > |(0 : ℚ) - 0| ∧ |(10 : ℚ) - 10| > 50)) ∧
    handleTouchEnd 10 0 10 0 3 = none := by
  refine ⟨⟨by norm_num, by norm_num⟩, ⟨by norm_num, by norm_num⟩, ?_, by norm_num, ?_⟩
  · exact ((c8_touch_amended 300 0 500 0 1).2 ⟨by norm_num, by norm_num⟩).2.2.1
      (by norm_num) (by norm_num)
  · exact (c8_touch_amended 10 0 10 0 3).1 (by norm_num)

end LandingNav

namespace LandingNav

/-- C10: scrollToSection is a total function of the state (no exception
path exists in the embedding): any integer index gives the same result as
its clamp to [0, N-1], and a call naming the index of the already-pending
transition is a no-op returning the state unchanged. -/
theorem c10_clamp_and_noop (i : ℤ) (c : Bool) (st : NavState) :
    scrollToSection i c st =
      scrollToSection (max 0 (min ((sectionLabels.length : ℤ) - 1) i)) c st ∧
    (st.scrollInProgress = true →
      st.pendingScroll = some (max 0 (min ((sectionLabels.length : ℤ) - 1) i)).toNat →
      scrollToSection i c st = st) := by
  have hcl : max 0 (min ((sectionLabels.length : ℤ) - 1)
      (max 0 (min ((sectionLabels.length : ℤ) - 1) i))) =
      max 0 (min ((sectionLabels.length : ℤ) - 1) i) := by
    have h7 : sectionLabels.length = 7 := rfl
    omega
  constructor
  · conv_rhs => rw [scrollToSection]
    rw [hcl]
    rw [scrollToSection]
  · intro h1 h2
    rw [scrollToSection]
    rw [if_pos ⟨h1, h2⟩]

/-- C10 witness: an out-of-range request with index 99 while a transition to
section 6 is pending both clamps and is a no-op. -/
theorem c10_clamp_and_noop_witness :
    (scrollToSection 99 true
        { width := 1000, offset := 0, anim := none, currentSection := 0,
          scrollInProgress := true, pendingScroll := some 6,
          snapType := "x mandatory", timers := [] } =
      scrollToSection (max 0 (min ((sectionLabels.length : ℤ) - 1) 99)) true
        { width := 1000, offset := 0, anim := none, currentSection := 0,
          scrollInProgress := true, pendingScroll := some 6,
          snapType := "x mandatory", timers := [] }) ∧
    scrollToSection 99 true
        { width := 1000, offset := 0, anim := none, currentSection := 0,
          scrollInProgress := true, pendingScroll := some 6,
          snapType := "x mandatory", timers := [] } =
      { width := 1000, offset := 0, anim := none, currentSection := 0,
        scrollInProgress := true, pendingScroll := some 6,
        snapType := "x mandatory", timers := [] } := by
  have h6 : (max 0 (min ((sectionLabels.length : ℤ) - 1) 99)).toNat = 6 := by
    have h7 : sectionLabels.length = 7 := rfl
    omega
  refine ⟨(c10_clamp_and_noop 99 true _).1, (c10_clamp_and_noop 99 true _).2 rfl ?_⟩
  rw [h6]

/-- C9: the settled resize handler recomputes the section width, leaves the
authoritative index unchanged, jumps (without animation) to
currentSection times the new width exactly when the offset is more than the
10 px tolerance away from that target, and leaves the in-progress flag,
pending index, settle timers and snap style untouched. -/
theorem c9_resize_reconcile (st : NavState) (w : ℚ) (hw : 0 < w)
    (hcs : st.currentSection ≤ 6) :
    (handleResize w st).width = w ∧
    (handleResize w st).currentSection = st.currentSection ∧
    (|st.offset - w * st.currentSection| > 10 →
        (handleResize w st).offset = w * st.currentSection) ∧
    (¬ |st.offset - w * st.currentSection| > 10 →
        (handleResize w st).offset = st.offset) ∧
    (handleResize w st).scrollInProgress = st.scrollInProgress ∧
    (handleResize w st).pendingScroll = st.pendingScroll ∧
    (handleResize w st).timers = st.timers ∧
    (handleResize w st).snapType = st.snapType := by
  rw [handleResize]
  dsimp only
  by_cases hfar : |st.offset - w * (st.currentSection : ℚ)| > 10
  · rw [if_pos hfar]
    refine ⟨rfl, ?_, fun _ => rfl, fun h => absurd hfar h, rfl, rfl, rfl, rfl⟩
    show resolveIndex (w * st.currentSection) w (sectionLabels.length - 1) = st.currentSection
    rw [show sectionLabels.length - 1 = 6 from rfl]
    exact resolveIndex_exact w (ne_of_gt hw) st.currentSection hcs
  · rw [if_neg hfar]
    exact ⟨rfl, rfl, fun h => absurd h hfar, fun _ => rfl, rfl, rfl, rfl, rfl⟩

/-- C9 witness: at section 3 of 7 with offset 3000, halving the width from
1000 to 500 keeps index 3 and corrects the offset to 1500. -/
theorem c9_resize_reconcile_witness :
    ((0 : ℚ) < 500) ∧
    (({ width := 1000, offset := 3000, anim := none, currentSection := 3,
        scrollInProgress := false, pendingScroll := none,
        snapType := "x mandatory", timers := [] } : NavState).currentSection ≤ 6) ∧
    (handleResize 500
        { width := 1000, offset := 3000, anim := none, currentSection := 3,
          scrollInProgress := false, pendingScroll := none,
          snapType := "x mandatory", timers := [] }).currentSection = 3 ∧
    (handleResize 500
        { width := 1000, offset := 3000, anim := none, currentSection := 3,
          scrollInProgress := false, pendingScroll := none,
          snapType := "x mandatory", timers := [] }).offset = 1500 := by
  have h := c9_resize_reconcile
    { width := 1000, offset := 3000, anim := none, currentSection := 3,
      scrollInProgress := false, pendingScroll := none,
      snapType := "x mandatory", timers := [] } 500 (by norm_num) (by norm_num)
  refine ⟨by norm_num, by norm_num, h.2.1, ?_⟩
  have hoff := h.2.2.1 (by norm_num)
  rw [hoff]
  norm_num

end LandingNav

namespace LandingNav

/-- C6: when the wheel debounce timer fires with an accumulated magnitude
below the minimum threshold 50, no request is produced and the accumulator
resets; otherwise the emitted request moves from the resolved current index
by 1 section, or by 2 sections exactly when the accumulated magnitude
reaches 400 (the point where the multiplier caps at 2 no matter how large
the accumulation), in the direction of the sign of the deltaY captured from
the most recent event, which the debounce restart always stores. -/
theorem c6_wheel_timer_fire :
    (∀ sL w dy : ℚ, ∀ ws : WheelState, ws.timerDeltaY = some dy →
      ws.accumulatedDelta < 50 →
        wheelTimeoutFire sL w ws =
          ({ ws with accumulatedDelta := 0, timerDeltaY := none }, none)) ∧
    (∀ sL w dy : ℚ, ∀ ws : WheelState, ws.timerDeltaY = some dy →
      50 ≤ ws.accumulatedDelta →
        wheelTimeoutFire sL w ws =
          ({ ws with accumulatedDelta := 0, timerDeltaY := none },
            (fun tgt => if tgt = resolveRaw sL w then none else some tgt.toNat)
              (max 0 (min 6 (resolveRaw sL w +
                (if dy > 0 then 1 else -1) *
                  (if 400 ≤ ws.accumulatedDelta then 2 else 1)))))) ∧
    (∀ now : ℤ, ∀ dY dX : ℚ, ∀ ws : WheelState, |dX| < |dY| →
        (handleWheelEvent now dY dX false ws).1.timerDeltaY = some dY) :=
  ⟨wheel_fire_noise, wheel_fire_act,
    fun now dY dX ws h => by rw [wheel_event_fresh now dY dX ws h]⟩

/-- C6 witness: a lone deltaY 2 event leaves accumulated magnitude 2, whose
timer fire is discarded; an accumulated magnitude of 450 with a positive
last deltaY fires a double jump from section 0 to section 2. -/
theorem c6_wheel_timer_fire_witness :
    (({ lastWheelTime := 0, accumulatedDelta := 2, timerDeltaY := some 2 } :
        WheelState).timerDeltaY = some 2) ∧
    (({ lastWheelTime := 0, accumulatedDelta := 2, timerDeltaY := some 2 } :
        WheelState).accumulatedDelta < 50) ∧
    wheelTimeoutFire 0 1000
        { lastWheelTime := 0, accumulatedDelta := 2, timerDeltaY := some 2 } =
      ({ lastWheelTime := 0, accumulatedDelta := 0, timerDeltaY := none }, none) ∧
    ((50 : ℚ) ≤ 450) ∧
    wheelTimeoutFire 0 1000
        { lastWheelTime := 0, accumulatedDelta := 450, timerDeltaY := some 30 } =
      ({ lastWheelTime := 0, accumulatedDelta := 0, timerDeltaY := none }, some 2) := by
  refine ⟨rfl, by norm_num, ?_, by norm_num, ?_⟩
  · exact c6_wheel_timer_fire.1 0 1000 2 _ rfl (by norm_num)
  · have h := c6_wheel_timer_fire.2.1 0 1000 30
      { lastWheelTime := 0, accumulatedDelta := 450, timerDeltaY := some 30 }
      rfl (by norm_num)
    rw [h, evalResolveRaw0]
    norm_num
    rfl

/-- C5: five dominant-vertical wheel events with deltaY 20 while no
transition is in progress each emit no request, restart the debounce timer
capturing deltaY 20, and accumulate to magnitude 100; one timer fire then
emits exactly one request, of magnitude one section forward from the
resolved current index, and a further fire emits nothing. -/
theorem c5_wheel_coalescing (t1 t2 t3 t4 t5 : ℤ) (sL w : ℚ)
    (hk0 : 0 ≤ resolveRaw sL w) (hk6 : resolveRaw sL w < 6) :
    handleWheelEvent t1 20 0 false wheelInit =
      ({ lastWheelTime := t1, accumulatedDelta := 20, timerDeltaY := some 20 }, none) ∧
    handleWheelEvent t2 20 0 false
        { lastWheelTime := t1, accumulatedDelta := 20, timerDeltaY := some 20 } =
      ({ lastWheelTime := t2, accumulatedDelta := 40, timerDeltaY := some 20 }, none) ∧
    handleWheelEvent t3 20 0 false
        { lastWheelTime := t2, accumulatedDelta := 40, timerDeltaY := some 20 } =
      ({ lastWheelTime := t3, accumulatedDelta := 60, timerDeltaY := some 20 }, none) ∧
    handleWheelEvent t4 20 0 false
        { lastWheelTime := t3, accumulatedDelta := 60, timerDeltaY := some 20 } =
      ({ lastWheelTime := t4, accumulatedDelta := 80, timerDeltaY := some 20 }, none) ∧
    handleWheelEvent t5 20 0 false
        { lastWheelTime := t4, accumulatedDelta := 80, timerDeltaY := some 20 } =
      ({ lastWheelTime := t5, accumulatedDelta := 100, timerDeltaY := some 20 }, none) ∧
    wheelTimeoutFire sL w
        { lastWheelTime := t5, accumulatedDelta := 100, timerDeltaY := some 20 } =
      ({ lastWheelTime := t5, accumulatedDelta := 0, timerDeltaY := none },
        some ((resolveRaw sL w).toNat + 1)) ∧
    wheelTimeoutFire sL w
        { lastWheelTime := t5, accumulatedDelta := 0, timerDeltaY := none } =
      ({ lastWheelTime := t5, accumulatedDelta := 0, timerDeltaY := none }, none) := by
  refine ⟨?_, ?_, ?_, ?_, ?_, ?_, rfl⟩
  · rw [wheel_event_fresh _ _ _ _ (by norm_num)]
    norm_num [wheelInit]
  · rw [wheel_event_fresh _ _ _ _ (by norm_num)]
    norm_num
  · rw [wheel_event_fresh _ _ _ _ (by norm_num)]
    norm_num
  · rw [wheel_event_fresh _ _ _ _ (by norm_num)]
    norm_num
  · rw [wheel_event_fresh _ _ _ _ (by norm_num)]
    norm_num
  · have h := wheel_fire_act sL w 20
      { lastWheelTime := t5, accumulatedDelta := 100, timerDeltaY := some 20 }
      rfl (by norm_num)
    rw [h]
    dsimp only
    rw [if_pos (show (20 : ℚ) > 0 by norm_num),
      if_neg (show ¬ (400 : ℚ) ≤ 100 by norm_num)]
    rw [show 0 ⊔ 6 ⊓ (resolveRaw sL w + 1 * 1) = resolveRaw sL w + 1 from by omega]
    rw [if_neg (show ¬ resolveRaw sL w + 1 = resolveRaw sL w from by omega)]
    rw [show (resolveRaw sL w + 1).toNat = (resolveRaw sL w).toNat + 1 from by omega]

/-- C5 witness: the coalescing theorem at event times 0 to 40 over offset 0
and width 1000, where the resolved index is 0 and the single emitted request
is section 1. -/
theorem c5_wheel_coalescing_witness :
    (0 ≤ resolveRaw 0 1000) ∧ (resolveRaw 0 1000 < 6) ∧
    wheelTimeoutFire 0 1000
        { lastWheelTime := 40, accumulatedDelta := 100, timerDeltaY := some 20 } =
      ({ lastWheelTime := 40, accumulatedDelta := 0, timerDeltaY := none }, some 1) := by
  refine ⟨by simp [evalResolveRaw0], by simp [evalResolveRaw0], ?_⟩
  have h := (c5_wheel_coalescing 0 10 20 30 40 0 1000
    (by simp [evalResolveRaw0]) (by simp [evalResolveRaw0])).2.2.2.2.2.1
  rw [h, evalResolveRaw0]
  rfl

end LandingNav

namespace LandingNav

/-- C2 counterexample: from the mount state, call scrollToSection(4) and let
the 800 ms settle timeout fire before the smooth scroll has moved (the
timeout never waits for scroll progress; a frozen animation, as in a
backgrounded tab, realises this schedule).  The timer clears the
in-progress flag while issuing its corrective scroll, leaving a state with
transitionInProgress false, authoritative index 4, offset 0 and width 1000,
where the resolver yields 0: the claimed invariant fails by four full
sections, far beyond any few-pixel tolerance. -/
theorem c2_counterexample :
    (navRun navInit [.call 4 true, .settle]).scrollInProgress = false ∧
    (navRun navInit [.call 4 true, .settle]).currentSection = 4 ∧
    (navRun navInit [.call 4 true, .settle]).offset = 0 ∧
    (navRun navInit [.call 4 true, .settle]).width = 1000 ∧
    resolveIndex 0 1000 6 = 0 ∧ (4 : ℕ) ≠ 0 := by
  have t4 : Int.toNat 4 = 4 := rfl
  have e1 : navStep navInit (.call 4 true) =
      { width := 1000, offset := 0, anim := some 4000, currentSection := 4,
        scrollInProgress := true, pendingScroll := some 4, snapType := "none",
        timers := [{ sectionWidth := 1000, clampedIndex := 4, originalSnapType := "x mandatory" }] } := by
    norm_num [navStep, scrollToSection, navInit, sectionLabels, t4]
  have e2 : navStep
      { width := 1000, offset := 0, anim := some 4000, currentSection := 4,
        scrollInProgress := true, pendingScroll := some 4, snapType := "none",
        timers := [{ sectionWidth := 1000, clampedIndex := 4, originalSnapType := "x mandatory" }] } .settle =
      { width := 1000, offset := 0, anim := some 4000, currentSection := 4,
        scrollInProgress := false, pendingScroll := none,
        snapType := "x mandatory", timers := [] } := by
    norm_num [navStep, settleCheck]
    exact fun h => absurd h (by decide)
  simp only [navRun, List.foldl, e1, e2]
  norm_num [evalResolve0]

end LandingNav

namespace LandingNav

/-- C2 (amended): the authoritative index stays in range, and in every
reachable state in which no programmatic smooth scroll is still in flight
(in particular whenever the in-progress flag is clear and all corrective
scrolls have finished) it equals the resolver applied exactly to the
current offset and width; every input event and timer firing preserves
this, provided resizes deliver a width of at least 34 px so the 10 px
resize tolerance stays inside the hysteresis band. -/
theorem c2_sync_invariant (st0 : NavState) (evs : List NavEvent) (h0 : Jnav st0)
    (hok : evs.all navEventOK = true) :
    Jnav (navRun st0 evs) ∧
    ((navRun st0 evs).anim = none →
      (navRun st0 evs).currentSection =
        resolveIndex (navRun st0 evs).offset (navRun st0 evs).width
          (sectionLabels.length - 1)) := by
  have h := jnav_navRun st0 evs h0 hok
  exact ⟨h, h.2⟩

/-- C2 witness: the amended invariant holds across a full transition to
section 4 followed by its settle check and a resize to width 500. -/
theorem c2_sync_invariant_witness :
    Jnav navInit ∧
    ([NavEvent.call 4 true, NavEvent.animDone, NavEvent.settle,
        NavEvent.resize 500].all navEventOK = true) ∧
    Jnav (navRun navInit
      [NavEvent.call 4 true, NavEvent.animDone, NavEvent.settle,
        NavEvent.resize 500]) := by
  have hJ : Jnav navInit := by
    constructor
    · decide
    · intro hA
      show (0 : ℕ) = resolveIndex 0 1000 (sectionLabels.length - 1)
      rw [show sectionLabels.length - 1 = 6 from rfl, evalResolve0]
  have hall : [NavEvent.call 4 true, NavEvent.animDone, NavEvent.settle,
      NavEvent.resize 500].all navEventOK = true := by
    simp only [List.all_cons, List.all_nil, navEventOK, Bool.and_eq_true,
      decide_eq_true_eq]
    norm_num
  exact ⟨hJ, hall, (c2_sync_invariant navInit _ hJ hall).1⟩

end LandingNav

namespace LandingNav

/-- C1: evaluation at the failing schedule.  From the mount state,
scrollToSection(2) immediately followed by scrollToSection(4); the smooth
scroll to 4000 completes; the two 800 ms settle timeouts fire in order (the
first is never cleared by the second call); the first sees offset 4000
against its captured target 2000 and issues a corrective scroll to 2000,
the second sees offset 4000 within 2 px of 4000 and does not counter it;
the stale corrective scroll then completes.  The controller ends fully
quiescent at authoritative index 2, not 4. -/
theorem c1_stale_settle_eval :
    (navRun navInit [.call 2 true, .call 4 true, .animDone, .settle, .settle,
        .animDone]).currentSection = 2 ∧
    (navRun navInit [.call 2 true, .call 4 true, .animDone, .settle, .settle,
        .animDone]).offset = 2000 ∧
    (navRun navInit [.call 2 true, .call 4 true, .animDone, .settle, .settle,
        .animDone]).scrollInProgress = false ∧
    (navRun navInit [.call 2 true, .call 4 true, .animDone, .settle, .settle,
        .animDone]).pendingScroll = none ∧
    (navRun navInit [.call 2 true, .call 4 true, .animDone, .settle, .settle,
        .animDone]).anim = none ∧
    (navRun navInit [.call 2 true, .call 4 true, .animDone, .settle, .settle,
        .animDone]).timers = [] ∧
    (2 : ℕ) ≠ 4 := by
  have t2 : Int.toNat 2 = 2 := rfl
  have t4 : Int.toNat 4 = 4 := rfl
  have e1 : navStep navInit (.call 2 true) =
      { width := 1000, offset := 0, anim := some 2000, currentSection := 2,
        scrollInProgress := true, pendingScroll := some 2, snapType := "none",
        timers := [{ sectionWidth := 1000, clampedIndex := 2, originalSnapType := "x mandatory" }] } := by
    norm_num [navStep, scrollToSection, navInit, sectionLabels, t2]
  have e2 : navStep
      { width := 1000, offset := 0, anim := some 2000, currentSection := 2,
        scrollInProgress := true, pendingScroll := some 2, snapType := "none",
        timers := [{ sectionWidth := 1000, clampedIndex := 2, originalSnapType := "x mandatory" }] }
      (.call 4 true) =
      { width := 1000, offset := 0, anim := some 4000, currentSection := 4,
        scrollInProgress := true, pendingScroll := some 4, snapType := "none",
        timers := [{ sectionWidth := 1000, clampedIndex := 2, originalSnapType := "x mandatory" },
                   { sectionWidth := 1000, clampedIndex := 4, originalSnapType := "none" }] } := by
    norm_num [navStep, scrollToSection, sectionLabels, t4]
  have e3 : navStep
      { width := 1000, offset := 0, anim := some 4000, currentSection := 4,
        scrollInProgress := true, pendingScroll := some 4, snapType := "none",
        timers := [{ sectionWidth := 1000, clampedIndex := 2, originalSnapType := "x mandatory" },
                   { sectionWidth := 1000, clampedIndex := 4, originalSnapType := "none" }] }
      .animDone =
      { width := 1000, offset := 4000, anim := none, currentSection := 4,
        scrollInProgress := true, pendingScroll := some 4, snapType := "none",
        timers := [{ sectionWidth := 1000, clampedIndex := 2, originalSnapType := "x mandatory" },
                   { sectionWidth := 1000, clampedIndex := 4, originalSnapType := "none" }] } := by
    norm_num [navStep, animFinish, handleScroll, sectionLabels, evalResolve4000]
  have e4 : navStep
      { width := 1000, offset := 4000, anim := none, currentSection := 4,
        scrollInProgress := true, pendingScroll := some 4, snapType := "none",
        timers := [{ sectionWidth := 1000, clampedIndex := 2, originalSnapType := "x mandatory" },
                   { sectionWidth := 1000, clampedIndex := 4, originalSnapType := "none" }] }
      .settle =
      { width := 1000, offset := 4000, anim := some 2000, currentSection := 4,
        scrollInProgress := false, pendingScroll := none, snapType := "x mandatory",
        timers := [{ sectionWidth := 1000, clampedIndex := 4, originalSnapType := "none" }] } := by
    norm_num [navStep, settleCheck]
    exact fun h => absurd h (by decide)
  have e5 : navStep
      { width := 1000, offset := 4000, anim := some 2000, currentSection := 4,
        scrollInProgress := false, pendingScroll := none, snapType := "x mandatory",
        timers := [{ sectionWidth := 1000, clampedIndex := 4, originalSnapType := "none" }] }
      .settle =
      { width := 1000, offset := 4000, anim := some 2000, currentSection := 4,
        scrollInProgress := false, pendingScroll := none, snapType := "none",
        timers := [] } := by
    norm_num [navStep, settleCheck]
    exact fun h => absurd h (by decide)
  have e6 : navStep
      { width := 1000, offset := 4000, anim := some 2000, currentSection := 4,
        scrollInProgress := false, pendingScroll := none, snapType := "none",
        timers := [] }
      .animDone =
      { width := 1000, offset := 2000, anim := none, currentSection := 2,
        scrollInProgress := false, pendingScroll := none, snapType := "none",
        timers := [] } := by
    norm_num [navStep, animFinish, handleScroll, sectionLabels, evalResolve2000]
  simp only [navRun, List.foldl, e1, e2, e3, e4, e5, e6]
  norm_num

/-- C3: evaluation at the failing schedule.  Two overlapping transitions
(scrollToSection(1) then scrollToSection(3)) from the mount state, whose
snap style is x mandatory; both settle timeouts fire.  Each settle clears
the in-progress flag and pending index, but the second transition captured
the value none that the first had written, so after both settles the snap
style is left at none: native scroll snap is not re-enabled, against the
claim that the settle unconditionally re-enables it. -/
theorem c3_snap_not_restored_eval :
    navInit.snapType = "x mandatory" ∧
    (navRun navInit [.call 1 true, .call 3 true, .settle, .settle]).snapType = "none" ∧
    (navRun navInit [.call 1 true, .call 3 true, .settle, .settle]).scrollInProgress = false ∧
    (navRun navInit [.call 1 true, .call 3 true, .settle, .settle]).pendingScroll = none ∧
    (navRun navInit [.call 1 true, .call 3 true, .settle, .settle]).timers = [] := by
  have t1 : Int.toNat 1 = 1 := rfl
  have t3 : Int.toNat 3 = 3 := rfl
  have e1 : navStep navInit (.call 1 true) =
      { width := 1000, offset := 0, anim := some 1000, currentSection := 1,
        scrollInProgress := true, pendingScroll := some 1, snapType := "none",
        timers := [{ sectionWidth := 1000, clampedIndex := 1, originalSnapType := "x mandatory" }] } := by
    norm_num [navStep, scrollToSection, navInit, sectionLabels, t1]
  have e2 : navStep
      { width := 1000, offset := 0, anim := some 1000, currentSection := 1,
        scrollInProgress := true, pendingScroll := some 1, snapType := "none",
        timers := [{ sectionWidth := 1000, clampedIndex := 1, originalSnapType := "x mandatory" }] }
      (.call 3 true) =
      { width := 1000, offset := 0, anim := some 3000, currentSection := 3,
        scrollInProgress := true, pendingScroll := some 3, snapType := "none",
        timers := [{ sectionWidth := 1000, clampedIndex := 1, originalSnapType := "x mandatory" },
                   { sectionWidth := 1000, clampedIndex := 3, originalSnapType := "none" }] } := by
    norm_num [navStep, scrollToSection, sectionLabels, t3]
  have e3 : navStep
      { width := 1000, offset := 0, anim := some 3000, currentSection := 3,
        scrollInProgress := true, pendingScroll := some 3, snapType := "none",
        timers := [{ sectionWidth := 1000, clampedIndex := 1, originalSnapType := "x mandatory" },
                   { sectionWidth := 1000, clampedIndex := 3, originalSnapType := "none" }] }
      .settle =
      { width := 1000, offset := 0, anim := some 1000, currentSection := 3,
        scrollInProgress := false, pendingScroll := none, snapType := "x mandatory",
        timers := [{ sectionWidth := 1000, clampedIndex := 3, originalSnapType := "none" }] } := by
    norm_num [navStep, settleCheck]
    exact fun h => absurd h (by decide)
  have e4 : navStep
      { width := 1000, offset := 0, anim := some 1000, currentSection := 3,
        scrollInProgress := false, pendingScroll := none, snapType := "x mandatory",
        timers := [{ sectionWidth := 1000, clampedIndex := 3, originalSnapType := "none" }] }
      .settle =
      { width := 1000, offset := 0, anim := some 3000, currentSection := 3,
        scrollInProgress := false, pendingScroll := none, snapType := "none",
        timers := [] } := by
    norm_num [navStep, settleCheck]
    exact fun h => absurd h (by decide)
  simp only [navRun, List.foldl, e1, e2, e3, e4]
  norm_num [navInit]

end LandingNav
